import Mathlib

/-!
# Verification of the test-case scanner rule engine

A shallow embedding of the `app` package (scanner, rule validators, issue
model, strict-mode policy) of the test-case scanner repository, together with
theorems settling the frozen claims about it.

Conventions of the embedding:
* A cell value is `Value`: a missing value (`None`/`NaN`, which `pd.isna`
  detects) is `vNone`; strings, Python ints and Python floats are the other
  constructors.  Python floats are modelled as exact rationals (`PyFloat`,
  an integer numerator over a positive denominator): every claim in scope
  only observes a float through `float.is_integer` and `int(float)`, which
  the rational model reproduces exactly for every value a float can hold.
* A record (pandas row) is an association list from column name to `Value`;
  `row.get(c, d)` is `Record.getD`, and plain `row[c]` / `row.get(c)` on a
  column known to exist is `Record.getV` (a key that is absent behaves as a
  missing value, exactly like a `NaN` cell).
* Python `str.strip` / `str.lower` / `str.upper` / `str.split()` are modelled
  by character-list functions so that every definition evaluates inside the
  kernel; on the ASCII strings this program manipulates they agree with
  Python.
* Issues are Python dicts with heterogeneous key sets; `Issue` has one
  optional field per key that any rule of this repository ever writes
  (`row`, `message`, `rule`, `severity`, `field`, `excel_row`, `error`),
  a field being `none` when the dict lacks the key.
-/

/-! ## Character / string primitives (models of the Python `str` methods) -/

/-- Model of Python whitespace for `str.strip` / `str.split()`:
space, tab, newline, carriage return, form feed, vertical tab. -/
def isPySpace (c : Char) : Bool :=
  c = ' ' || c = '\t' || c = '\n' || c = '\r' || c = '\x0b' || c = '\x0c'

/-- Python `str.strip()` with no arguments. -/
def pyStrip (s : String) : String :=
  ⟨((s.data.dropWhile isPySpace).reverse.dropWhile isPySpace).reverse⟩

/-- Python `str.lower()` (ASCII; the program only lowercases ASCII text). -/
def pyLower (s : String) : String :=
  ⟨s.data.map Char.toLower⟩

/-- Python `str.upper()` (ASCII). -/
def pyUpper (s : String) : String :=
  ⟨s.data.map Char.toUpper⟩

/-- Splitting a character list on runs of whitespace, discarding empty
pieces: the behaviour of Python `str.split()` with no arguments. -/
def pySplitWs : List Char → List (List Char)
  | [] => []
  | c :: cs =>
    if isPySpace c then pySplitWs cs
    else
      match pySplitWs cs with
      | [] => [[c]]
      | w :: ws =>
        match cs with
        | [] => [[c]]
        | d :: _ => if isPySpace d then [c] :: w :: ws else (c :: w) :: ws

/-- Python `sep.join(pieces)`. -/
def pyJoin (sep : String) : List String → String
  | [] => ""
  | [x] => x
  | x :: xs => x ++ sep ++ pyJoin sep xs

/-- Python `str.endswith(".")`. -/
def endsWithDot (s : String) : Bool :=
  s.data.getLast? = some '.'

/-- Python `<` on strings restricted to `≤`: code-point lexicographic order. -/
def charListLE : List Char → List Char → Bool
  | [], _ => true
  | _ :: _, [] => false
  | a :: as, b :: bs => if a = b then charListLE as bs else decide (a.toNat < b.toNat)

def strLE (a b : String) : Bool := charListLE a.data b.data

/-! ## Cell values -/

/-- An exact model of a finite Python float: the rational
`num / den` with `den > 0`.  Every finite binary64 value is such a rational,
and the two observations the program makes of a float — `float.is_integer`
and `int(float)` on a whole value — depend only on the rational value. -/
structure PyFloat where
  num : Int
  den : Nat
deriving DecidableEq

/-- Python `float.is_integer()`. -/
def PyFloat.is_integer (f : PyFloat) : Bool :=
  decide (f.num % (f.den : Int) = 0)

/-- Python `int(f)` for a float `f`; only ever applied to whole values,
where truncating division is exact. -/
def PyFloat.toInt (f : PyFloat) : Int :=
  f.num / (f.den : Int)

/-- A raw cell value as loaded by pandas. `vNone` is a missing value
(`None` or float `NaN`): exactly the values `pd.isna` recognises here. -/
inductive Value where
  | vNone
  | vStr (s : String)
  | vInt (n : Int)
  | vFloat (f : PyFloat)
deriving DecidableEq

/-- Python `str(value)`.  `str` of a whole-valued float renders as `n.0`
(Python shows `3.0`); the shortest-roundtrip rendering of a non-whole float,
and `str` of a missing value, are never interpolated into any message this
development reasons about, so their rendering there is schematic. -/
def pyStr : Value → String
  | .vNone => "nan"
  | .vStr s => s
  | .vInt n => toString n
  | .vFloat f => if f.is_integer then toString f.toInt ++ ".0"
                 else toString f.num ++ "/" ++ toString f.den

/-! ## `app.rules.common` -/

/-- `EMPTY_LIKE_VALUES` from `app/rules/common.py`. -/
def EMPTY_LIKE_VALUES : List String :=
  ["", "-", "--", "n/a", "na", "none", "null", "nil", "empty"]

/-- `is_empty_like` from `app/rules/common.py`.  `pd.isna` is true exactly on
`vNone`; for an int or float value, `str(value)` is never empty after
stripping and never one of the placeholder tokens (they are all
non-numeric), so numbers are never empty-like. -/
def is_empty_like : Value → Bool
  | .vNone => true
  | .vInt _ => false
  | .vFloat _ => false
  | .vStr s =>
    let text := pyStrip s
    text = "" || (pyLower text) ∈ EMPTY_LIKE_VALUES

/-- `excel_row_number` from `app/rules/common.py`. -/
def excel_row_number (df_index : Nat) : Nat := df_index + 2

/-! ## Records and tables -/

/-- A pandas row: an association list from column name to cell value. -/
def Record := List (String × Value)

instance : DecidableEq Record := by
  unfold Record
  infer_instance

/-- `row.get(c, d)`: the value under `c`, or the default when absent. -/
def Record.getD (r : Record) (c : String) (d : Value) : Value :=
  match r.find? (fun p => p.1 = c) with
  | some p => p.2
  | none => d

/-- `row[c]` / `row.get(c)` for a column known to exist: an absent key
behaves as a missing (`NaN`) cell. -/
def Record.getV (r : Record) (c : String) : Value :=
  r.getD c .vNone

/-- A loaded table: ordered column names and rows (pandas `DataFrame` with
the default `RangeIndex`, so the index of a row is its position). -/
structure Table where
  columns : List String
  rows : List Record
deriving DecidableEq

/-- `is_blank_row` from `app/rules/common.py`. -/
def is_blank_row (row : Record) : Bool :=
  [row.getD "Test Case ID" (.vStr ""),
   row.getD "Step #" (.vStr ""),
   row.getD "Action" (.vStr ""),
   row.getD "Input Data" (.vStr ""),
   row.getD "Data" (.vStr ""),
   row.getD "Expected Results" (.vStr "")].all is_empty_like

/-! ## Python `float(text)` (the fragment `to_int_step` exercises)

`float(text)` in CPython validates PEP 515 underscores, recognises the
`inf` / `infinity` / `nan` spellings, and otherwise converts the decimal
literal to the nearest IEEE-754 binary64 value (round half to even),
overflowing to infinity and underflowing through subnormals to zero.  The
model below reproduces that exactly on ASCII text: the result of a
successful conversion is either the rounded value as an exact dyadic
rational (`PyFloat`), or the marker for a non-finite result, whose
`is_integer()` is false. -/

def digitsToNat (cs : List Char) : Nat :=
  cs.foldl (fun a c => a * 10 + (c.toNat - 48)) 0

/-- The result of a successful `float(text)` call: a finite binary64 value
as an exact rational, or a non-finite one (`inf` / `-inf` / `nan`), for
which `float.is_integer()` returns false. -/
inductive PyFloatLit where
  | finite (f : PyFloat)
  | notFinite
deriving DecidableEq

/-- PEP 515 validation as CPython's float parser applies it: every
underscore must be immediately preceded and followed by an ASCII digit.
`prev` is the character before the current position. -/
def underscoresOk (prev : Option Char) : List Char → Bool
  | [] => true
  | c :: rest =>
    if c = '_' then
      (match prev with
       | some p => p.isDigit
       | none => false) &&
      (match rest with
       | r :: _ => r.isDigit
       | [] => false) &&
      underscoresOk (some c) rest
    else underscoresOk (some c) rest

/-- Bounded upward search for the least `k` with `n < 2 ^ k`; the fuel only
limits recursion, the search always ends long before `n + 1` steps. -/
def bitLenGo : Nat → Nat → Nat → Nat
  | 0, _, k => k
  | fuel + 1, n, k => if n < 2 ^ k then k else bitLenGo fuel n (k + 1)

/-- The bit length of `n`: the least `k` with `n < 2 ^ k`. -/
def bitLen (n : Nat) : Nat := bitLenGo (n + 1) n 0

/-- `floor (logBase 2 (N / D))` for positive naturals `N`, `D`.  From the
bit lengths the floor is one of two adjacent integers; one comparison
decides which. -/
def floorLog2Ratio (N D : Nat) : Int :=
  let k : Int := ((bitLen N : Int) - 1) - ((bitLen D : Int) - 1)
  if 0 ≤ k then (if D * 2 ^ k.toNat ≤ N then k else k - 1)
  else (if D ≤ N * 2 ^ (-k).toNat then k else k - 1)

/-- Round the ratio `SN / SD` to the nearest natural, ties to even. -/
def roundHalfEven (SN SD : Nat) : Nat :=
  let q := SN / SD
  let r := SN % SD
  if 2 * r < SD then q
  else if SD < 2 * r then q + 1
  else if q % 2 = 0 then q else q + 1

/-- Correctly rounded decimal-to-binary64 conversion, the arithmetic core
of CPython's `float(text)` (David Gay's correctly rounded `strtod`): the
exact value `± M * 10 ^ ex / 10 ^ k` is rounded to the nearest binary64
(half to even).  The significand is scaled into `[2 ^ 52, 2 ^ 53)` (or the
exponent floored at `-1074`, producing subnormals and underflow to zero),
and a rounded magnitude of at least `2 ^ 1024` overflows to infinity. -/
def roundDecimalToDouble (neg : Bool) (M k : Nat) (ex : Int) : PyFloatLit :=
  if M = 0 then .finite ⟨0, 1⟩
  else
    let N := if 0 ≤ ex then M * 10 ^ ex.toNat else M
    let D := if 0 ≤ ex then 10 ^ k else 10 ^ k * 10 ^ (-ex).toNat
    let e : Int := max (floorLog2Ratio N D - 52) (-1074)
    let SN := if 0 ≤ e then N else N * 2 ^ (-e).toNat
    let SD := if 0 ≤ e then D * 2 ^ e.toNat else D
    let s := roundHalfEven SN SD
    if 0 ≤ e then
      let v := s * 2 ^ e.toNat
      if 2 ^ 1024 ≤ v then .notFinite
      else .finite ⟨(if neg then -1 else 1) * (v : Int), 1⟩
    else .finite ⟨(if neg then -1 else 1) * (s : Int), 2 ^ (-e).toNat⟩

/-- Model of CPython `float(text)` on already-stripped ASCII text: PEP 515
underscore validation, an optional sign, the case-insensitive `inf` /
`infinity` / `nan` spellings, or a decimal mantissa with at least one digit
and an optional exponent, correctly rounded to binary64.  (CPython first
transliterates non-ASCII decimal digits and whitespace to ASCII; the cell
texts in scope are ASCII, so that step is not modelled.) -/
def pyFloatOfString (s : String) : Option PyFloatLit :=
  let cs0 := s.data
  if !underscoresOk none cs0 then none
  else
    let cs := cs0.filter (fun c => c ≠ '_')
    let neg := cs.head? = some '-'
    let cs1 := if cs.head? = some '-' || cs.head? = some '+' then cs.tail else cs
    let lowered := cs1.map Char.toLower
    if lowered = "inf".data || lowered = "infinity".data || lowered = "nan".data then
      some .notFinite
    else
      let intPart := cs1.takeWhile Char.isDigit
      let rest1 := cs1.dropWhile Char.isDigit
      let fracPart := if rest1.head? = some '.' then rest1.tail.takeWhile Char.isDigit else []
      let rest2 := if rest1.head? = some '.' then rest1.tail.dropWhile Char.isDigit else rest1
      if intPart.isEmpty && fracPart.isEmpty then none
      else
        let M := digitsToNat (intPart ++ fracPart)
        let k := fracPart.length
        match rest2 with
        | [] => some (roundDecimalToDouble neg M k 0)
        | e :: rest3 =>
          if e = 'e' || e = 'E' then
            let eneg := rest3.head? = some '-'
            let rest4 := if rest3.head? = some '-' || rest3.head? = some '+' then rest3.tail else rest3
            let eDigits := rest4.takeWhile Char.isDigit
            let rest5 := rest4.dropWhile Char.isDigit
            if eDigits.isEmpty || !rest5.isEmpty then none
            else
              some (roundDecimalToDouble neg M k
                ((if eneg then -1 else 1) * (digitsToNat eDigits : Int)))
          else none

/-- `to_int_step` from `app/rules/common.py`.  In the text branch a failed
`float(text)` raises `ValueError`, caught as `None`; a non-finite result
has `is_integer()` false, also `None`. -/
def to_int_step (value : Value) : Option Int :=
  if is_empty_like value then none
  else
    match value with
    | .vInt n => some n
    | .vFloat f => if f.is_integer then some f.toInt else none
    | .vNone => none
    | .vStr s =>
      let text := pyStrip s
      match pyFloatOfString text with
      | some (.finite f) => if f.is_integer then some f.toInt else none
      | some .notFinite => none
      | none => none

/-! ## The issue model -/

/-- A validation finding: a Python dict whose possible keys are the union of
the keys any rule of this repository writes.  A field is `none` when the
dict does not contain the key. -/
structure Issue where
  row : Option Nat
  message : Option String
  rule : Option String
  severity : Option String
  field : Option String
  excel_row : Option Nat
  error : Option String
deriving DecidableEq

/-- `make_issue` from `app/rules/common.py`: writes `row`, `message`, `rule`,
`severity`, and `field` only when the passed field name is truthy. -/
def make_issue (row : Option Nat) (message : String) (rule : String)
    (severity : String) (field : Option String) : Issue :=
  { row := row
    message := some message
    rule := some rule
    severity := some severity
    field := match field with
             | some f => if f = "" then none else some f
             | none => none
    excel_row := none
    error := none }

/-- An issue dict of `check_step_numbering`: only `row` and `error` keys. -/
def stepIssue (row : Nat) (error : String) : Issue :=
  { row := some row, message := none, rule := none, severity := none,
    field := none, excel_row := none, error := some error }

/-- An issue dict of `check_core_steps_enforcement`: only `severity`,
`excel_row` and `message` keys. -/
def coreIssue (excel_row : Nat) (message : String) : Issue :=
  { row := none, message := some message, rule := none,
    severity := some "WARNING", field := none,
    excel_row := some excel_row, error := none }

/-! ## Row iteration (`df.iterrows()`) -/

/-- The rows of a table paired with their index, starting at `n`:
`df.iterrows()` with the default `RangeIndex` (so a validator sees each row
with its position as the index, and a filtered frame keeps the original
indices because filtering happens on this list). -/
def rowsWithIdx (n : Nat) : List Record → List (Nat × Record)
  | [] => []
  | r :: rs => (n, r) :: rowsWithIdx (n + 1) rs

/-! ## `app.rules.missing_columns` -/

/-- The required column set of `check_missing_columns` and the sorted list of
the missing ones: `sorted(required - set(df.columns))`.  The literal list is
already in code-point order, and `List.filter` preserves order, so the result
is sorted exactly as Python `sorted` leaves it. -/
def missingColumns (df : Table) : List String :=
  (["Action", "Expected Results"]).filter (fun c => c ∉ df.columns)

/-- `check_missing_columns` from `app/rules/missing_columns.py`. -/
def check_missing_columns (df : Table) : List Issue :=
  let missing := missingColumns df
  if missing.isEmpty then []
  else [make_issue none ("Missing required columns: " ++ pyJoin ", " missing)
          "MISSING_COLUMNS" "FAIL" none]

/-! ## `app.rules.required_fields` -/

/-- The loop body of `check_required_fields` for one `(idx, row)` pair. -/
def requiredFieldsRow (idx : Nat) (row : Record) : List Issue :=
  if is_blank_row row then []
  else
    (if is_empty_like (row.getD "Action" (.vStr "")) then
       [make_issue (some (excel_row_number idx)) "Action is empty"
          "REQUIRED_FIELDS" "FAIL" (some "Action")]
     else []) ++
    (if is_empty_like (row.getD "Expected Results" (.vStr "")) then
       [make_issue (some (excel_row_number idx)) "Expected Results is empty"
          "REQUIRED_FIELDS" "FAIL" (some "Expected Results")]
     else [])

/-- `check_required_fields` from `app/rules/required_fields.py`. -/
def check_required_fields (df : Table) : List Issue :=
  if "Action" ∈ df.columns ∧ "Expected Results" ∈ df.columns then
    (rowsWithIdx 0 df.rows).flatMap (fun p => requiredFieldsRow p.1 p.2)
  else []

/-! ## `app.rules.blank_rows` -/

/-- The loop body of `check_blank_rows` for one `(idx, row)` pair. -/
def blankRowsRow (idx : Nat) (row : Record) : List Issue :=
  if is_blank_row row then
    [make_issue (some (excel_row_number idx)) "Blank row" "BLANK_ROW" "WARNING" none]
  else []

/-- `check_blank_rows` from `app/rules/blank_rows.py`. -/
def check_blank_rows (df : Table) : List Issue :=
  (rowsWithIdx 0 df.rows).flatMap (fun p => blankRowsRow p.1 p.2)

/-! ## `app.rules.data_required` -/

/-- The loop body of `check_data_required_for_actions`. -/
def dataRequiredRow (idx : Nat) (row : Record) : List Issue :=
  if is_blank_row row then []
  else
    let action := pyLower (pyStrip (pyStr (row.getD "Action" (.vStr ""))))
    let data := row.getD "Data" (.vStr "")
    if action = "search for patient using name or ssn" ∧ is_empty_like data then
      [make_issue (some (excel_row_number idx))
         "Data is required for this Action (provide patient name or SSN)"
         "DATA_REQUIRED" "FAIL" (some "Data")]
    else []

/-- `check_data_required_for_actions` from `app/rules/data_required.py`. -/
def check_data_required_for_actions (df : Table) : List Issue :=
  if "Action" ∈ df.columns ∧ "Data" ∈ df.columns then
    (rowsWithIdx 0 df.rows).flatMap (fun p => dataRequiredRow p.1 p.2)
  else []

/-! ## `app.rules.expected_results_punctuation` -/

/-- The loop body of `check_expected_results_punctuation`. -/
def punctuationRow (idx : Nat) (row : Record) : List Issue :=
  if is_blank_row row then []
  else
    let value := row.getD "Expected Results" (.vStr "")
    if is_empty_like value then []
    else
      let text := pyStrip (pyStr value)
      if endsWithDot text then []
      else
        [make_issue (some (excel_row_number idx))
           "Expected Results should end with a period (.)"
           "EXPECTED_RESULTS_PUNCTUATION" "WARNING" (some "Expected Results")]

/-- `check_expected_results_punctuation` from
`app/rules/expected_results_punctuation.py`. -/
def check_expected_results_punctuation (df : Table) : List Issue :=
  if "Expected Results" ∈ df.columns then
    (rowsWithIdx 0 df.rows).flatMap (fun p => punctuationRow p.1 p.2)
  else []

/-! ## `app.rules.generic_expected_results` -/

/-- `GENERIC_PHRASES` from `app/rules/generic_expected_results.py`. -/
def GENERIC_PHRASES : List String :=
  ["ok", "okay", "works", "work", "done", "completed", "complete",
   "success", "successful", "pass", "passed", "correct", "correctly",
   "as expected"]

/-- `_normalize` from `app/rules/generic_expected_results.py`
(only reached with a non-`None` value, for which it is trim + lowercase). -/
def genericNormalize (v : Value) : String :=
  pyLower (pyStrip (pyStr v))

/-- The loop body of `check_generic_expected_results`: the generic-phrase
branch continues past the short-text branch, so the two are exclusive. -/
def genericRow (idx : Nat) (row : Record) : List Issue :=
  if is_blank_row row then []
  else
    let expected := row.getD "Expected Results" (.vStr "")
    if is_empty_like expected then []
    else
      let expectedNorm := genericNormalize expected
      if expectedNorm ∈ GENERIC_PHRASES then
        [make_issue (some (excel_row_number idx))
           ("Expected Results is too generic (\"" ++ pyStrip (pyStr expected) ++ "\")")
           "GENERIC_EXPECTED_RESULTS" "WARNING" (some "Expected Results")]
      else if expectedNorm.length ≤ 3 then
        [make_issue (some (excel_row_number idx))
           ("Expected Results is too short (\"" ++ pyStrip (pyStr expected) ++ "\")")
           "GENERIC_EXPECTED_RESULTS" "WARNING" (some "Expected Results")]
      else []

/-- `check_generic_expected_results` from
`app/rules/generic_expected_results.py`. -/
def check_generic_expected_results (df : Table) : List Issue :=
  if "Expected Results" ∈ df.columns then
    (rowsWithIdx 0 df.rows).flatMap (fun p => genericRow p.1 p.2)
  else []

/-! ## `app.rules.step_numbering` -/

/-- First-appearance deduplication: the key order of a Python dict built by
`setdefault` insertions, and the group order pandas would use before its
sort. -/
def firstDedup (l : List Value) : List Value :=
  l.foldl (fun acc a => if a ∈ acc then acc else acc ++ [a]) []

/-- First-appearance deduplication for integer step numbers (the insertion
order of the `step_to_rows` dict keys). -/
def firstDedupInt (l : List Int) : List Int :=
  l.foldl (fun acc a => if a ∈ acc then acc else acc ++ [a]) []

/-- Stable insertion into a `le`-sorted list. -/
def insertLE (le : α → α → Bool) (a : α) : List α → List α
  | [] => [a]
  | b :: bs => if le a b then a :: b :: bs else b :: insertLE le a bs

/-- Stable sort by a boolean `le`: the behaviour of Python `sorted`. -/
def sortLE (le : α → α → Bool) (l : List α) : List α :=
  l.foldr (insertLE le) []

/-- A total order on grouping keys.  Keys of like type compare as Python
compares them (strings by code point, numbers by value); pandas raises on a
mixed-type sort, which the model totalises by constructor rank — no claim
depends on the relative order of mixed-type keys. -/
def valueLE (a b : Value) : Bool :=
  match a, b with
  | .vStr s, .vStr t => strLE s t
  | .vInt m, .vInt n => decide (m ≤ n)
  | .vFloat p, .vFloat q => decide (p.num * (q.den : Int) ≤ q.num * (p.den : Int))
  | .vInt m, .vFloat q => decide (m * (q.den : Int) ≤ q.num)
  | .vFloat p, .vInt n => decide (p.num ≤ n * (p.den : Int))
  | .vNone, _ => true
  | _, .vNone => false
  | .vStr _, _ => true
  | _, .vStr _ => false

/-- The message of the step-numbering ordering error.  The source writes the
format string without an `f` prefix, so the text contains the literal
placeholder `{tc_id}` instead of the test-case identifier. -/
def outOfOrderMessage : String :=
  "Step # is out of order in Test Case ID {tc_id} (expected ascending order)"

/-- The ordering loop of `check_step_numbering`:
`for i in range(1, len(ordered)):` appends one error at the first decrease
and breaks.  `prev` is the previous `(row_num, step)` pair. -/
def orderingGo (prev : Nat × Int) : List (Nat × Int) → List Issue
  | [] => []
  | y :: t => if y.2 < prev.2 then [stepIssue y.1 outOfOrderMessage] else orderingGo y t

/-- The ordering errors of one group, from its valid steps in row order. -/
def orderingErrors : List (Nat × Int) → List Issue
  | [] => []
  | x :: rest => orderingGo x rest

/-- The minimum of a list of row numbers (`min(group_rows)`; only evaluated
on non-empty groups). -/
def minRow : List Nat → Nat
  | [] => 0
  | r :: rs => rs.foldl Nat.min r

/-- The maximum of a list of step numbers (`max(valid_steps)`; only
evaluated when the group has at least one valid step). -/
def maxStep : List Int → Int
  | [] => 0
  | s :: ss => ss.foldl max s

/-- Python `range(1, m + 1)` for an integer bound `m` (empty when `m < 1`),
as a list of integers. -/
def rangeOneTo (m : Int) : List Int :=
  (List.range m.toNat).map (fun i => (i : Int) + 1)

/-- The parse branch of the first per-row loop of `check_step_numbering`:
nothing for a coercible Step #, an empty-step error for an empty-like one,
a not-a-number error otherwise.  `e` is `(row_num, raw)`. -/
def stepParseIssues (tcId : Value) (e : Nat × Value) : List Issue :=
  match to_int_step e.2 with
  | some _ => []
  | none =>
    if is_empty_like e.2 then
      [stepIssue e.1 ("Step # is empty (Test Case ID: " ++ pyStr tcId ++ ")")]
    else
      [stepIssue e.1 ("Step # is not a number: \"" ++ pyStrip (pyStr e.2) ++
         "\" (Test Case ID: " ++ pyStr tcId ++ ")")]

/-- The duplicate check for one key `s` of the `step_to_rows` dict: one
error per affected row when `s` occurs on at least two rows. -/
def stepDupIssues (tcId : Value) (steps_in_order : List (Nat × Int)) (s : Int) :
    List Issue :=
  let rows := (steps_in_order.filter (fun p => p.2 = s)).map Prod.fst
  if rows.length > 1 then
    rows.map (fun r =>
      stepIssue r ("Duplicate Step # " ++ toString s ++ " in Test Case ID " ++ pyStr tcId))
  else []

/-- The gap check of `check_step_numbering`: the integers of
`range(1, max + 1)` absent from the valid steps, reported as one aggregated
error on the group's first row. -/
def stepMissIssues (tcId : Value) (group_rows : List Nat) (valid_steps : List Int) :
    List Issue :=
  let missing := (rangeOneTo (maxStep valid_steps)).filter (fun i => i ∉ valid_steps)
  if missing.isEmpty then []
  else [stepIssue (minRow group_rows)
          ("Missing Step # in Test Case ID " ++ pyStr tcId ++ ": " ++
           pyJoin ", " (missing.map toString))]

/-- The body of the per-group loop of `check_step_numbering` for group key
`tcId` and the group's `(index, row)` pairs in row order. -/
def stepGroupErrors (tcId : Value) (grp : List (Nat × Record)) : List Issue :=
  let entries := grp.map (fun p => (excel_row_number p.1, p.2.getV "Step #"))
  let parseErrs := entries.flatMap (stepParseIssues tcId)
  let steps_in_order := entries.filterMap (fun e =>
    (to_int_step e.2).map (fun s => (e.1, s)))
  let group_rows := entries.map Prod.fst
  if steps_in_order.isEmpty then parseErrs
  else
    let stepKeys := firstDedupInt (steps_in_order.map Prod.snd)
    let dupErrs := stepKeys.flatMap (stepDupIssues tcId steps_in_order)
    let valid_steps := sortLE (fun a b => decide (a ≤ b)) stepKeys
    let missErrs := stepMissIssues tcId group_rows valid_steps
    parseErrs ++ dupErrs ++ missErrs ++ orderingErrors steps_in_order

/-- `check_step_numbering` from `app/rules/step_numbering.py`.  The working
frame keeps the original indices; `groupby` sorts the group keys and keeps
row order inside each group. -/
def check_step_numbering (df : Table) : List Issue :=
  if "Test Case ID" ∈ df.columns ∧ "Step #" ∈ df.columns then
    let working := (rowsWithIdx 0 df.rows).filter (fun p =>
      ¬ is_blank_row p.2 ∧ ¬ is_empty_like (p.2.getV "Test Case ID"))
    let keys := sortLE valueLE (firstDedup (working.map (fun p => p.2.getV "Test Case ID")))
    keys.flatMap (fun k =>
      stepGroupErrors k (working.filter (fun p => p.2.getV "Test Case ID" = k)))
  else []

/-! ## `app.core_steps` -/

/-- A `CoreStep` template entry from `app/core_steps.py`. -/
structure CoreStep where
  action : String
  expected : String
deriving DecidableEq

/-- `CORE_STEPS` from `app/core_steps.py`. -/
def CORE_STEPS : List CoreStep :=
  [⟨"Launch CAPRI application from desktop",
    "Windows Security Certificate Selection window pop-up displays."⟩,
   ⟨"Select appropriate PIV Card Certificate and select OK button",
    "ActivClient Login pin screen displays."⟩,
   ⟨"Enter PIN and hit Enter",
    "System Use Notification window displays."⟩,
   ⟨"Click OK button",
    "CAPRI News feed displays."⟩,
   ⟨"Click Close button",
    "CAPRI GUI version pop-up displays."⟩,
   ⟨"Click OK button",
    "CAPRI alerts screen displays."⟩,
   ⟨"Click Continue button",
    "CAPRI application loads. Patient Selector screen displays."⟩,
   ⟨"Search for Patient using Name or SSN",
    "Patient record is displayed."⟩]

/-- `normalize_spaces` from `app/core_steps.py`:
`" ".join(str(text).strip().split())`. -/
def normalize_spaces (text : String) : String :=
  pyJoin " " ((pySplitWs text.data).map (fun w => (⟨w⟩ : String)))

/-- `steps_match` from `app/core_steps.py`. -/
def steps_match (a b : String) : Bool :=
  normalize_spaces a = normalize_spaces b

/-! ## `app.config` (the core-steps settings) -/

def ENABLE_CORE_STEPS : Bool := true
def CORE_ANCHOR_STEP_3_ACTION : String := "Enter PIN and hit Enter"
def CORE_ANCHOR_STEP_4_ACTION : String := "Click OK button"
def CORE_ANCHOR_STEP_5_ACTION : String := "Click OK button"
def CORE_ANCHOR_STEP_8_ACTION : String := "Click Continue button"
def CORE_ANCHOR_MIN_MATCHES : Nat := 2
def CORE_STEPS_COUNT : Nat := 8

/-! ## `app.scanner` -/

/-- The `anchor_step_map` of `check_core_steps_enforcement`, in insertion
order (1-based step position, expected action text). -/
def anchorStepMap : List (Nat × String) :=
  [(3, CORE_ANCHOR_STEP_3_ACTION), (4, CORE_ANCHOR_STEP_4_ACTION),
   (5, CORE_ANCHOR_STEP_5_ACTION), (8, CORE_ANCHOR_STEP_8_ACTION)]

/-- `max(anchor_step_map.keys())`. -/
def maxAnchorPos : Nat :=
  (anchorStepMap.map Prod.fst).foldl Nat.max 0

/-- The `steps` list of `check_core_steps_enforcement`: the `(action,
expected)` text of every row in row order, a missing cell reading as `""`.
Blank rows are included — row order alone defines step position here. -/
def buildSteps (df : Table) : List (String × String) :=
  df.rows.map (fun r =>
    ((match r.getV "Action" with | .vNone => "" | v => pyStr v),
     (match r.getV "Expected Results" with | .vNone => "" | v => pyStr v)))

/-- The anchor-match count of `check_core_steps_enforcement`: anchors with
empty configured text are skipped; the others compare against the action at
their 1-based position with whitespace normalization. -/
def anchorMatchCount (steps : List (String × String)) : Nat :=
  anchorStepMap.foldl (fun acc a =>
    if a.2 = "" then acc
    else if steps_match ((steps.getD (a.1 - 1) ("", "")).1) a.2 then acc + 1
    else acc) 0

/-- The enforcement loop of `check_core_steps_enforcement`: compare the first
`min(CORE_STEPS_COUNT, len(CORE_STEPS), len(steps))` steps against the
template, one WARNING per mismatched field. -/
def coreEnforcementIssues (steps : List (String × String)) : List Issue :=
  let enforce_n := Nat.min CORE_STEPS_COUNT (Nat.min CORE_STEPS.length steps.length)
  (List.range enforce_n).flatMap (fun i =>
    let tmpl := CORE_STEPS.getD i ⟨"", ""⟩
    let found := steps.getD i ("", "")
    let excel := i + 2
    (if steps_match found.1 tmpl.action then []
     else [coreIssue excel ("Core Step " ++ toString (i + 1) ++
             " Action mismatch. Expected: \"" ++ tmpl.action ++
             "\" | Found: \"" ++ found.1 ++ "\".")]) ++
    (if steps_match found.2 tmpl.expected then []
     else [coreIssue excel ("Core Step " ++ toString (i + 1) ++
             " Expected Results mismatch. Expected: \"" ++ tmpl.expected ++
             "\" | Found: \"" ++ found.2 ++ "\".")]))

/-- `check_core_steps_enforcement` from `app/scanner.py`. -/
def check_core_steps_enforcement (df : Table) : List Issue :=
  if ENABLE_CORE_STEPS = false then []
  else if ¬ ("Action" ∈ df.columns ∧ "Expected Results" ∈ df.columns) then []
  else
    let steps := buildSteps df
    if steps.length < maxAnchorPos then []
    else if anchorMatchCount steps < CORE_ANCHOR_MIN_MATCHES then []
    else coreEnforcementIssues steps

/-- A scan result: `{"rows": ..., "columns": ..., "errors": ...}`. -/
structure ScanResult where
  rows : Nat
  columns : List String
  errors : List Issue
deriving DecidableEq

/-- `TestCaseScanner.scan` from `app/scanner.py` on an already-loaded table:
the pre-flight schema check short-circuits; otherwise the `RULES` list runs
in order (its first entry is `check_missing_columns` again, which returns
nothing here), then core-steps enforcement, then the conditional
step-numbering rule. -/
def scan (df : Table) : ScanResult :=
  let preflight := check_missing_columns df
  if preflight.isEmpty then
    { rows := df.rows.length
      columns := df.columns
      errors :=
        check_missing_columns df ++
        check_required_fields df ++
        check_blank_rows df ++
        check_data_required_for_actions df ++
        check_expected_results_punctuation df ++
        check_generic_expected_results df ++
        check_core_steps_enforcement df ++
        (if "Test Case ID" ∈ df.columns ∧ "Step #" ∈ df.columns then
           check_step_numbering df
         else []) }
  else
    { rows := df.rows.length, columns := df.columns, errors := preflight }

/-! ## `app.main` (severity extraction and strict mode) -/

/-- An element of an error list as `main.py` sees it: a dict issue or a bare
string (kept for backward compatibility). -/
inductive Err where
  | str (s : String)
  | issue (i : Issue)
deriving DecidableEq

/-- `extract_severity` from `app/main.py`.  A bare string is FAIL; a falsy or
blank `severity` value falls through to the absent `level` / `type` keys
(no rule of this repository writes them) and defaults to FAIL; otherwise the
stripped, uppercased value is classified, unrecognised values defaulting to
FAIL. -/
def extract_severity (e : Err) : String :=
  match e with
  | .str _ => "FAIL"
  | .issue i =>
    match i.severity with
    | none => "FAIL"
    | some s =>
      if s = "" then "FAIL"
      else if pyStrip s = "" then "FAIL"
      else
        let n := pyUpper (pyStrip s)
        if n = "FAIL" ∨ n = "ERROR" then "FAIL"
        else if n = "WARNING" ∨ n = "WARN" then "WARNING"
        else if n = "INFO" then "INFO"
        else "FAIL"

/-- The loop body of `apply_strict_mode` for one entry: a string passes
through; a WARNING issue is copied (`dict(e)`) with its `severity` key
overwritten to FAIL; everything else passes through unchanged. -/
def stricten (e : Err) : Err :=
  match e with
  | .str s => .str s
  | .issue i =>
    if extract_severity (.issue i) = "WARNING" then
      .issue { i with severity := some "FAIL" }
    else .issue i

/-- `apply_strict_mode` from `app/main.py`: the loop appends the transform
of each entry in order. -/
def apply_strict_mode (errors : List Err) : List Err :=
  errors.map stricten

/-- The number of entries of an error list that `extract_severity`
classifies as `sev`. -/
def countSev (l : List Err) (sev : String) : Nat :=
  (l.filter (fun e => extract_severity e = sev)).length

/-! ## Concrete tables used to instantiate the theorems -/

/-- A row with the four standard columns, all cells strings. -/
def mkRow4 (tc step act exp : String) : Record :=
  [("Test Case ID", .vStr tc), ("Step #", .vStr step),
   ("Action", .vStr act), ("Expected Results", .vStr exp)]

/-- The standard four-column header. -/
def stdCols : List String :=
  ["Test Case ID", "Step #", "Action", "Expected Results"]

/-- Test Case ID `TC1` with Step # values 1, 2, 2, 4 in row order. -/
def dfDupGap : Table :=
  ⟨stdCols,
   [mkRow4 "TC1" "1" "do" "ok done.",
    mkRow4 "TC1" "2" "do" "ok done.",
    mkRow4 "TC1" "2" "do" "ok done.",
    mkRow4 "TC1" "4" "do" "ok done."]⟩

/-- Test Case ID `TC1` with Step # values 3, 1, 4, 2: a first decrease at the
second row and a second decrease at the fourth, no duplicate, no gap. -/
def dfOutOfOrder : Table :=
  ⟨stdCols,
   [mkRow4 "TC1" "3" "do" "ok done.",
    mkRow4 "TC1" "1" "do" "ok done.",
    mkRow4 "TC1" "4" "do" "ok done.",
    mkRow4 "TC1" "2" "do" "ok done."]⟩

/-- One non-blank row whose Expected Results is `"OK "`. -/
def dfGenericOk : Table :=
  ⟨["Expected Results"], [[("Expected Results", .vStr "OK ")]]⟩

/-- A table without the required Action / Expected Results columns. -/
def dfNoCols : Table :=
  ⟨["foo"], [[("foo", .vStr "x")]]⟩

/-- One row whose Step # is non-numeric text: the scan of this table contains
a step-numbering error dict (`row` / `error` keys only). -/
def dfBadStep : Table :=
  ⟨stdCols, [mkRow4 "TC1" "x" "do" "ok done."]⟩

/-- Eight rows whose rows 3 and 4 (1-based) match the configured anchors, so
core-steps enforcement activates; row 2 (index 1) is fully blank; the blank
row excludes step 2 from the `TC1` group, leaving a gap. -/
def dfCore : Table :=
  ⟨stdCols,
   [mkRow4 "TC1" "1" "Launch CAPRI application from desktop"
      "Windows Security Certificate Selection window pop-up displays.",
    mkRow4 "" "" "" "",
    mkRow4 "TC1" "3" "Enter PIN  and hit  Enter"
      "System Use Notification window displays.",
    mkRow4 "TC1" "4" "Click OK button" "CAPRI News feed displays.",
    mkRow4 "TC1" "5" "x" "y.",
    mkRow4 "TC1" "6" "Click OK button" "CAPRI alerts screen displays.",
    mkRow4 "TC1" "7" "x" "y.",
    mkRow4 "TC1" "8" "x" "y."]⟩

/-- `dfCore` with the fourth row's action changed so that exactly one anchor
(step 3) matches. -/
def dfCoreOneAnchor : Table :=
  ⟨stdCols,
   [mkRow4 "TC1" "1" "Launch CAPRI application from desktop"
      "Windows Security Certificate Selection window pop-up displays.",
    mkRow4 "" "" "" "",
    mkRow4 "TC1" "3" "Enter PIN  and hit  Enter"
      "System Use Notification window displays.",
    mkRow4 "TC1" "4" "zz" "CAPRI News feed displays.",
    mkRow4 "TC1" "5" "x" "y.",
    mkRow4 "TC1" "6" "Click OK button" "CAPRI alerts screen displays.",
    mkRow4 "TC1" "7" "x" "y.",
    mkRow4 "TC1" "8" "x" "y."]⟩

/-- An empty Action in the first row (produces a REQUIRED_FIELDS issue at
Excel row 2) and a fully blank second row. -/
def dfBlankMix : Table :=
  ⟨stdCols,
   [mkRow4 "TC1" "1" "" "ok done.",
    mkRow4 "" "" "" ""]⟩

/-- A single WARNING issue list (the strict-mode counterexample input). -/
def warnErr : Err :=
  .issue (make_issue (some 2) "Blank row" "BLANK_ROW" "WARNING" none)

example : pyStrip "  OK " = "OK" := by decide
example : pyLower "OK" = "ok" := by decide
example : pyJoin ", " ["Action", "Expected Results"] = "Action, Expected Results" := by decide
example : is_empty_like (.vStr " N/A ") = true := by decide
example : is_empty_like (.vStr "OK ") = false := by decide
example : to_int_step (.vStr " 3.0 ") = some 3 := by decide
example : to_int_step (.vStr "2.5") = none := by decide
example : to_int_step (.vStr "abc") = none := by decide
example : to_int_step (.vFloat ⟨3, 1⟩) = some 3 := by decide
example : to_int_step (.vStr "1e2") = some 100 := by decide
example : to_int_step (.vStr "1_0") = some 10 := by decide
example : to_int_step (.vStr "_10") = none := by decide
example : to_int_step (.vStr "0.99999999999999999") = some 1 := by decide
example : to_int_step (.vStr "inf") = none := by decide
example : to_int_step (.vStr "0.5") = none := by decide

/-! ## Helper lemmas -/

theorem ne_empty_of_append_left {a b : String} (h : a ≠ "") : a ++ b ≠ "" := by
  intro hab
  apply h
  have hlen : (a ++ b).length = 0 := by rw [hab]; rfl
  rw [String.length_append] at hlen
  have : a.length = 0 := by omega
  cases a with
  | mk data =>
    cases data with
    | nil => rfl
    | cons c cs => simp [String.length] at this

theorem mem_rowsWithIdx {p : Nat × Record} :
    ∀ {n : Nat} {rs : List Record}, p ∈ rowsWithIdx n rs →
      ∃ j, rs.get? j = some p.2 ∧ p.1 = n + j := by
  intro n rs
  induction rs generalizing n with
  | nil => intro h; simp [rowsWithIdx] at h
  | cons r rest ih =>
    intro h
    simp only [rowsWithIdx, List.mem_cons] at h
    rcases h with h | h
    · exact ⟨0, by simp [h], by simp [h]⟩
    · obtain ⟨j, hj, hn⟩ := ih h
      exact ⟨j + 1, by simpa using hj, by omega⟩

/-! ## Claim C9: `to_int_step` -/

set_option maxRecDepth 16384 in
set_option exponentiation.threshold 4000 in
/-- C9: `to_int_step` returns no value on empty-like input; returns the
integer for integer inputs, for whole-number floats (3.0 → 3) and for text
whose `float()` conversion is a whole number; and returns no value (not an
error) for non-whole floats, for text converting to a non-whole or
non-finite float, and for text `float()` rejects.  The concrete conjuncts
cover the correctly-rounded conversion: an underscored literal, a decimal
that rounds up to the whole float 1.0, overflow to infinity, and underflow
to the whole float 0.0. -/
theorem to_int_step_spec :
    (to_int_step .vNone = none) ∧
    (∀ s : String, is_empty_like (.vStr s) = true → to_int_step (.vStr s) = none) ∧
    (∀ n : Int, to_int_step (.vInt n) = some n) ∧
    (∀ f : PyFloat, f.is_integer = true → to_int_step (.vFloat f) = some f.toInt) ∧
    (∀ f : PyFloat, f.is_integer = false → to_int_step (.vFloat f) = none) ∧
    (∀ s : String, is_empty_like (.vStr s) = false →
       pyFloatOfString (pyStrip s) = none → to_int_step (.vStr s) = none) ∧
    (∀ s : String, is_empty_like (.vStr s) = false →
       pyFloatOfString (pyStrip s) = some .notFinite → to_int_step (.vStr s) = none) ∧
    (∀ s : String, ∀ f : PyFloat, is_empty_like (.vStr s) = false →
       pyFloatOfString (pyStrip s) = some (.finite f) →
       to_int_step (.vStr s) = if f.is_integer then some f.toInt else none) ∧
    to_int_step (.vFloat ⟨3, 1⟩) = some 3 ∧
    to_int_step (.vStr "3.0") = some 3 ∧
    to_int_step (.vStr "7") = some 7 ∧
    to_int_step (.vFloat ⟨5, 2⟩) = none ∧
    to_int_step (.vStr "2.5") = none ∧
    to_int_step (.vStr "abc") = none ∧
    to_int_step (.vStr "1_0") = some 10 ∧
    to_int_step (.vStr "0.99999999999999999") = some 1 ∧
    to_int_step (.vStr "1e400") = none ∧
    to_int_step (.vStr "1e-400") = some 0 := by
  refine ⟨rfl, ?_, ?_, ?_, ?_, ?_, ?_, ?_, by decide, by decide, by decide,
    by decide, by decide, by decide, by decide, by decide, by decide, by decide⟩
  · intro s hs
    simp [to_int_step, hs]
  · intro n
    simp [to_int_step, is_empty_like]
  · intro f hf
    simp [to_int_step, is_empty_like, hf]
  · intro f hf
    simp [to_int_step, is_empty_like, hf]
  · intro s hs hp
    simp [to_int_step, hs, hp]
  · intro s hs hp
    simp [to_int_step, hs, hp]
  · intro s f hs hp
    simp [to_int_step, hs, hp]

/-- Witness for C9: the theorem applied at concrete empty-like text, a
whole-valued float in non-lowest terms, non-numeric text, and the `inf`
spelling (a successfully parsed non-finite float). -/
theorem to_int_step_spec_witness :
    to_int_step (.vStr " N/A ") = none ∧
    to_int_step (.vFloat ⟨4, 2⟩) = some 2 ∧
    to_int_step (.vStr "x1") = none ∧
    to_int_step (.vStr "inf") = none := by
  refine ⟨to_int_step_spec.2.1 " N/A " (by decide), ?_, ?_, ?_⟩
  · have h := to_int_step_spec.2.2.2.1 ⟨4, 2⟩ (by decide)
    rw [h]; decide
  · exact to_int_step_spec.2.2.2.2.2.1 "x1" (by decide) (by decide)
  · exact to_int_step_spec.2.2.2.2.2.2.1 "inf" (by decide) (by decide)

/-! ## Claim C4: step numbering on steps 1, 2, 2, 4 -/

/-- C4: for Test Case ID `TC1` with Step # values 1, 2, 2, 4 in row order,
the step-numbering validator emits exactly two duplicate issues for step 2
(one per affected row), one missing-step issue citing 3 attached to the
group's first row, and no out-of-order issue. -/
theorem step_numbering_dup_gap :
    check_step_numbering dfDupGap =
      [stepIssue 3 "Duplicate Step # 2 in Test Case ID TC1",
       stepIssue 4 "Duplicate Step # 2 in Test Case ID TC1",
       stepIssue 2 "Missing Step # in Test Case ID TC1: 3"] := by
  decide

/-! ## Claim C5: first-decrease ordering error -/

theorem orderingGo_eq (rest : List (Nat × Int)) :
    ∀ prev, orderingGo prev rest =
      match ((prev :: rest).zip rest).find? (fun p => decide (p.2.2 < p.1.2)) with
      | some p => [stepIssue p.2.1 outOfOrderMessage]
      | none => [] := by
  induction rest with
  | nil => intro prev; rfl
  | cons y t ih =>
    intro prev
    by_cases h : y.2 < prev.2
    · simp only [orderingGo, if_pos h, List.zip_cons_cons]
      rw [List.find?_cons_of_pos _ (by simpa using h)]
    · simp only [orderingGo, if_neg h, List.zip_cons_cons]
      rw [List.find?_cons_of_neg _ (by simpa using h)]
      exact ih y

/-- C5: within a group, scanning valid steps in row order, the first decrease
relative to the previous valid step yields a single out-of-order error
attached to that row, and no further ordering errors follow for the group;
the out-of-order message is the literal source text with the unresolved
`{tc_id}` interpolation placeholder.  The last conjunct runs the full
validator on a group with two decreases: only the first is reported. -/
theorem ordering_first_decrease :
    (∀ l : List (Nat × Int),
       orderingErrors l =
         match (l.zip l.tail).find? (fun p => decide (p.2.2 < p.1.2)) with
         | some p => [stepIssue p.2.1 outOfOrderMessage]
         | none => []) ∧
    (∀ l : List (Nat × Int), (orderingErrors l).length ≤ 1) ∧
    outOfOrderMessage =
      "Step # is out of order in Test Case ID {tc_id} (expected ascending order)" ∧
    check_step_numbering dfOutOfOrder = [stepIssue 3 outOfOrderMessage] := by
  have hmain : ∀ l : List (Nat × Int),
      orderingErrors l =
        match (l.zip l.tail).find? (fun p => decide (p.2.2 < p.1.2)) with
        | some p => [stepIssue p.2.1 outOfOrderMessage]
        | none => [] := by
    intro l
    cases l with
    | nil => rfl
    | cons x rest => simpa [orderingErrors] using orderingGo_eq rest x
  refine ⟨hmain, ?_, rfl, by decide⟩
  intro l
  rw [hmain l]
  cases h : (l.zip l.tail).find? (fun p => decide (p.2.2 < p.1.2)) <;> simp

/-! ## Claim C8: generic-text branch precedence -/

/-- C8: the generic-text validator emits at most one issue per row; when the
normalized Expected Results equals a generic phrase the issue is the
too-generic one (the too-short branch never also fires, even for texts of
normalized length at most 3); on a table whose one non-blank row has
Expected Results `"OK "` the validator emits exactly one WARNING from the
generic-phrase branch. -/
theorem generic_branch_precedence :
    (∀ idx row, (genericRow idx row).length ≤ 1) ∧
    (∀ idx (row : Record), is_blank_row row = false →
       is_empty_like (row.getD "Expected Results" (.vStr "")) = false →
       genericNormalize (row.getD "Expected Results" (.vStr "")) ∈ GENERIC_PHRASES →
       genericRow idx row =
         [make_issue (some (excel_row_number idx))
            ("Expected Results is too generic (\"" ++
             pyStrip (pyStr (row.getD "Expected Results" (.vStr ""))) ++ "\")")
            "GENERIC_EXPECTED_RESULTS" "WARNING" (some "Expected Results")]) ∧
    check_generic_expected_results dfGenericOk =
      [make_issue (some 2) "Expected Results is too generic (\"OK\")"
         "GENERIC_EXPECTED_RESULTS" "WARNING" (some "Expected Results")] := by
  refine ⟨?_, ?_, by decide⟩
  · intro idx row
    unfold genericRow
    dsimp only
    split <;> [simp; skip]
    split <;> [simp; skip]
    split <;> [simp; skip]
    split <;> simp
  · intro idx row hblank hempty hphrase
    unfold genericRow
    rw [if_neg (by simp [hblank]), if_neg (by simp [hempty]), if_pos hphrase]

/-- Witness for C8: the general branch-precedence conjunct applied at the
concrete `"OK "` row, whose normalized text is both a generic phrase and of
length at most 3. -/
theorem generic_branch_precedence_witness :
    genericRow 0 [("Expected Results", .vStr "OK ")] =
      [make_issue (some 2) "Expected Results is too generic (\"OK\")"
         "GENERIC_EXPECTED_RESULTS" "WARNING" (some "Expected Results")] ∧
    (genericRow 0 [("Expected Results", .vStr "OK ")]).length ≤ 1 := by
  constructor
  · have h := generic_branch_precedence.2.1 0 [("Expected Results", .vStr "OK ")]
      (by decide) (by decide) (by decide)
    rw [h]; decide
  · exact generic_branch_precedence.1 0 [("Expected Results", .vStr "OK ")]

/-! ## Claim C10: core-steps enforcement reaches blank rows -/

/-- C10: on `dfCore` the core-steps enforcement activates and the fully
blank second row (index 1, Excel row 3) receives two core-steps WARNING
issues — the validator, unlike the row-level rules, includes blank rows in
the step sequence it compares against the template. -/
theorem core_steps_hit_blank_row :
    is_blank_row (dfCore.rows.getD 1 []) = true ∧
    (check_core_steps_enforcement dfCore).filter
        (fun i => decide (i.excel_row = some 3)) =
      [coreIssue 3 ("Core Step 2 Action mismatch. Expected: \"Select appropriate " ++
         "PIV Card Certificate and select OK button\" | Found: \"\"."),
       coreIssue 3 ("Core Step 2 Expected Results mismatch. Expected: " ++
         "\"ActivClient Login pin screen displays.\" | Found: \"\".")] ∧
    (coreIssue 3 "x").severity = some "WARNING" := by
  refine ⟨by decide, by decide, rfl⟩

/-! ## Claim C3: strict mode -/

theorem extract_severity_cases (e : Err) :
    extract_severity e = "FAIL" ∨ extract_severity e = "WARNING" ∨
      extract_severity e = "INFO" := by
  cases e with
  | str s => exact Or.inl rfl
  | issue i =>
    rcases hs : i.severity with _ | s
    · exact Or.inl (by simp [extract_severity, hs])
    · simp only [extract_severity, hs]
      split
      · exact Or.inl rfl
      split
      · exact Or.inl rfl
      split
      · exact Or.inl rfl
      split
      · exact Or.inr (Or.inl rfl)
      split
      · exact Or.inr (Or.inr rfl)
      · exact Or.inl rfl

theorem stricten_of_not_warning {e : Err} (h : extract_severity e ≠ "WARNING") :
    stricten e = e := by
  cases e with
  | str s => rfl
  | issue i => simp only [stricten, if_neg h]

theorem stricten_sev (e : Err) :
    extract_severity (stricten e) =
      if extract_severity e = "WARNING" then "FAIL" else extract_severity e := by
  by_cases h : extract_severity e = "WARNING"
  · rw [if_pos h]
    cases e with
    | str s => simp [extract_severity] at h
    | issue i =>
      simp only [stricten, if_pos h]
      rfl
  · rw [if_neg h, stricten_of_not_warning h]

theorem countSev_cons (e : Err) (t : List Err) (sev : String) :
    countSev (e :: t) sev =
      (if extract_severity e = sev then 1 else 0) + countSev t sev := by
  by_cases h : extract_severity e = sev
  · simp [countSev, List.filter_cons, h, Nat.add_comm]
  · simp [countSev, List.filter_cons, h]

theorem countSev_strict (l : List Err) :
    countSev (apply_strict_mode l) "WARNING" = 0 ∧
    countSev (apply_strict_mode l) "INFO" = countSev l "INFO" ∧
    countSev (apply_strict_mode l) "FAIL" = countSev l "FAIL" + countSev l "WARNING" := by
  induction l with
  | nil => exact ⟨rfl, rfl, rfl⟩
  | cons e t ih =>
    obtain ⟨ih1, ih2, ih3⟩ := ih
    have hmap : apply_strict_mode (e :: t) = stricten e :: apply_strict_mode t := rfl
    have hsev := stricten_sev e
    rcases extract_severity_cases e with h | h | h <;>
      rw [h] at hsev <;>
      simp only [if_neg (by simp : ¬("FAIL" : String) = "WARNING"),
        if_pos (rfl : ("WARNING" : String) = "WARNING"),
        if_neg (by simp : ¬("INFO" : String) = "WARNING")] at hsev <;>
      refine ⟨?_, ?_, ?_⟩ <;>
      simp [hmap, countSev_cons, hsev, h, ih1, ih2, ih3] <;>
      omega

/-- Counterexample to C3: on a list holding one WARNING issue the FAIL count
of the strict-mode output is 1 while the input FAIL count is 0 — the FAIL
count is NOT unchanged by the transform. -/
theorem strict_mode_fail_count_changes :
    countSev [warnErr] "FAIL" = 0 ∧
    countSev (apply_strict_mode [warnErr]) "FAIL" = 1 := by
  constructor <;> rfl

/-- C3 (amended): strict mode preserves length, leaves no WARNING entry,
keeps every non-WARNING entry (hence every FAIL and INFO issue) unchanged in
place, turns each WARNING issue into a FAIL issue with the same row,
message, rule and field, preserves the INFO count, and produces a FAIL
count equal to the input FAIL count plus the input WARNING count (so the
FAIL count is unchanged only when no WARNING was present).  Promoted
entries are fresh values; no element of the input list is mutated. -/
theorem strict_mode_spec (l : List Err) :
    (apply_strict_mode l).length = l.length ∧
    countSev (apply_strict_mode l) "WARNING" = 0 ∧
    countSev (apply_strict_mode l) "INFO" = countSev l "INFO" ∧
    countSev (apply_strict_mode l) "FAIL" = countSev l "FAIL" + countSev l "WARNING" ∧
    (∀ (k : Nat) (e : Err), l[k]? = some e → extract_severity e ≠ "WARNING" →
       (apply_strict_mode l)[k]? = some e) ∧
    (∀ (k : Nat) (i : Issue), l[k]? = some (Err.issue i) →
       extract_severity (Err.issue i) = "WARNING" →
       (apply_strict_mode l)[k]? =
           some (Err.issue { i with severity := some "FAIL" }) ∧
       extract_severity (Err.issue { i with severity := some "FAIL" }) = "FAIL") ∧
    (∀ i : Issue, ({ i with severity := some "FAIL" } : Issue).row = i.row ∧
       ({ i with severity := some "FAIL" } : Issue).message = i.message ∧
       ({ i with severity := some "FAIL" } : Issue).rule = i.rule ∧
       ({ i with severity := some "FAIL" } : Issue).field = i.field) := by
  obtain ⟨h1, h2, h3⟩ := countSev_strict l
  refine ⟨by simp [apply_strict_mode], h1, h2, h3, ?_, ?_,
    fun i => ⟨rfl, rfl, rfl, rfl⟩⟩
  · intro k e hk he
    show (List.map stricten l)[k]? = some e
    rw [List.getElem?_map, hk, Option.map_some', stricten_of_not_warning he]
  · intro k i hk hw
    constructor
    · show (List.map stricten l)[k]? = _
      rw [List.getElem?_map, hk, Option.map_some']
      simp only [stricten, if_pos hw]
    · rfl

/-- Witness for C3 (amended): the theorem applied to a concrete three-entry
list holding one FAIL, one WARNING and one INFO issue. -/
theorem strict_mode_spec_witness :
    countSev (apply_strict_mode
      [.issue (make_issue none "a" "R" "FAIL" none), warnErr,
       .issue (make_issue none "c" "R" "INFO" none)]) "FAIL" = 2 ∧
    (apply_strict_mode
      [.issue (make_issue none "a" "R" "FAIL" none), warnErr,
       .issue (make_issue none "c" "R" "INFO" none)])[1]? =
      some (.issue { make_issue (some 2) "Blank row" "BLANK_ROW" "WARNING" none
                       with severity := some "FAIL" }) := by
  constructor
  · have h := (strict_mode_spec
      [.issue (make_issue none "a" "R" "FAIL" none), warnErr,
       .issue (make_issue none "c" "R" "INFO" none)]).2.2.2.1
    rw [h]; rfl
  · exact ((strict_mode_spec
      [.issue (make_issue none "a" "R" "FAIL" none), warnErr,
       .issue (make_issue none "c" "R" "INFO" none)]).2.2.2.2.2.1 1
        (make_issue (some 2) "Blank row" "BLANK_ROW" "WARNING" none)
        rfl rfl).1

/-! ## Claim C2: missing-columns short-circuit -/

theorem mem_missingColumns (df : Table) (c : String) :
    c ∈ missingColumns df ↔
      (c ∈ ["Action", "Expected Results"] ∧ c ∉ df.columns) := by
  simp [missingColumns, List.mem_filter]

/-- C2: when at least one required column is absent, the whole scan returns
exactly one issue: the file-level (`row = none`) MISSING_COLUMNS FAIL issue
whose message joins the missing column names with `", "`; the missing-name
list holds exactly the absent required columns, in code-point (alphabetical)
order; no other validator contributes anything. -/
theorem missing_columns_short_circuit (df : Table)
    (h : ¬ ("Action" ∈ df.columns ∧ "Expected Results" ∈ df.columns)) :
    (scan df).errors =
      [make_issue none
         ("Missing required columns: " ++ pyJoin ", " (missingColumns df))
         "MISSING_COLUMNS" "FAIL" none] ∧
    (∀ c, c ∈ missingColumns df ↔
       (c ∈ ["Action", "Expected Results"] ∧ c ∉ df.columns)) ∧
    List.Pairwise (fun a b => strLE a b = true) (missingColumns df) ∧
    (scan df).errors.length = 1 := by
  have hne : missingColumns df ≠ [] := by
    intro h0
    rcases not_and_or.mp h with hA | hE
    · have hmem : "Action" ∈ missingColumns df :=
        (mem_missingColumns df "Action").mpr ⟨by simp, hA⟩
      rw [h0] at hmem
      cases hmem
    · have hmem : "Expected Results" ∈ missingColumns df :=
        (mem_missingColumns df "Expected Results").mpr ⟨by simp, hE⟩
      rw [h0] at hmem
      cases hmem
  have hne' : (missingColumns df).isEmpty = false := by
    cases hmc : missingColumns df with
    | nil => exact absurd hmc hne
    | cons a l => rfl
  have hcm : check_missing_columns df =
      [make_issue none
         ("Missing required columns: " ++ pyJoin ", " (missingColumns df))
         "MISSING_COLUMNS" "FAIL" none] := by
    simp only [check_missing_columns, hne', Bool.false_eq_true, if_false]
  have hscan : (scan df).errors = check_missing_columns df := by
    simp only [scan, hcm]
    rw [if_neg (by simp)]
  refine ⟨by rw [hscan, hcm], mem_missingColumns df, ?_, by rw [hscan, hcm]; rfl⟩
  exact List.Pairwise.sublist (List.filter_sublist _) (by decide)

/-- Witness for C2: the theorem applied to a concrete table having neither
required column; both missing names appear in the message, sorted. -/
theorem missing_columns_short_circuit_witness :
    (scan dfNoCols).errors =
      [make_issue none "Missing required columns: Action, Expected Results"
         "MISSING_COLUMNS" "FAIL" none] ∧
    (scan dfNoCols).errors.length = 1 := by
  have h := missing_columns_short_circuit dfNoCols (by decide)
  constructor
  · rw [h.1]; rfl
  · exact h.2.2.2

/-! ## Claim C6: anchor-detection threshold -/

/-- C6: with the minimum-match threshold at its configured value 2, a table
(with the required columns and at least as many rows as the highest anchor
position) on which exactly 2 of the 4 configured anchors match by
whitespace-normalized text activates enforcement — the validator's output is
the template-comparison issue list — while a table on which exactly 1
anchor matches yields zero issues. -/
theorem anchor_threshold (df1 df2 : Table)
    (h1c : "Action" ∈ df1.columns ∧ "Expected Results" ∈ df1.columns)
    (h1n : ¬ (buildSteps df1).length < maxAnchorPos)
    (h1m : anchorMatchCount (buildSteps df1) = 2)
    (h2c : "Action" ∈ df2.columns ∧ "Expected Results" ∈ df2.columns)
    (h2n : ¬ (buildSteps df2).length < maxAnchorPos)
    (h2m : anchorMatchCount (buildSteps df2) = 1) :
    check_core_steps_enforcement df1 = coreEnforcementIssues (buildSteps df1) ∧
    check_core_steps_enforcement df2 = [] := by
  constructor
  · simp only [check_core_steps_enforcement, ENABLE_CORE_STEPS]
    rw [if_neg (by simp), if_neg (by simp [h1c.1, h1c.2]), if_neg h1n,
      if_neg (by rw [h1m]; decide)]
  · simp only [check_core_steps_enforcement, ENABLE_CORE_STEPS]
    rw [if_neg (by simp), if_neg (by simp [h2c.1, h2c.2]), if_neg h2n,
      if_pos (by rw [h2m]; decide)]

/-- Witness for C6: the theorem applied to `dfCore` (whose rows 3 and 4
match the step-3 and step-4 anchors, and only those) and `dfCoreOneAnchor`
(where only the step-3 anchor matches); on the former the enforcement
output is non-empty. -/
theorem anchor_threshold_witness :
    check_core_steps_enforcement dfCore = coreEnforcementIssues (buildSteps dfCore) ∧
    check_core_steps_enforcement dfCoreOneAnchor = [] ∧
    coreEnforcementIssues (buildSteps dfCore) ≠ [] := by
  have h := anchor_threshold dfCore dfCoreOneAnchor
    (by decide) (by decide) (by decide) (by decide) (by decide) (by decide)
  exact ⟨h.1, h.2, by decide⟩

/-! ## Membership characterizations of the row validators -/

theorem mem_check_required_fields {df : Table} {i : Issue}
    (h : i ∈ check_required_fields df) :
    ∃ idx rec, df.rows.get? idx = some rec ∧ is_blank_row rec = false ∧
      i.row = some (excel_row_number idx) ∧
      (∃ m, i.message = some m ∧ m ≠ "") ∧ i.rule = some "REQUIRED_FIELDS" := by
  unfold check_required_fields at h
  split at h
  swap
  · simp at h
  rw [List.mem_flatMap] at h
  obtain ⟨p, hp, hi⟩ := h
  obtain ⟨j, hj, hn⟩ := mem_rowsWithIdx hp
  unfold requiredFieldsRow at hi
  split at hi
  · simp at hi
  rename_i hb
  rw [List.mem_append] at hi
  have hjj : df.rows.get? p.1 = some p.2 := by rw [hn]; simpa using hj
  rcases hi with hi | hi
  · split at hi
    · rw [List.mem_singleton] at hi
      subst hi
      exact ⟨p.1, p.2, hjj, by simpa using hb, rfl, ⟨_, rfl, by decide⟩, rfl⟩
    · exact absurd hi (List.not_mem_nil _)
  · split at hi
    · rw [List.mem_singleton] at hi
      subst hi
      exact ⟨p.1, p.2, hjj, by simpa using hb, rfl, ⟨_, rfl, by decide⟩, rfl⟩
    · exact absurd hi (List.not_mem_nil _)

theorem mem_check_data_required {df : Table} {i : Issue}
    (h : i ∈ check_data_required_for_actions df) :
    ∃ idx rec, df.rows.get? idx = some rec ∧ is_blank_row rec = false ∧
      i.row = some (excel_row_number idx) ∧
      (∃ m, i.message = some m ∧ m ≠ "") ∧ i.rule = some "DATA_REQUIRED" := by
  unfold check_data_required_for_actions at h
  split at h
  swap
  · simp at h
  rw [List.mem_flatMap] at h
  obtain ⟨p, hp, hi⟩ := h
  obtain ⟨j, hj, hn⟩ := mem_rowsWithIdx hp
  unfold dataRequiredRow at hi
  dsimp only at hi
  split at hi
  · simp at hi
  rename_i hb
  have hjj : df.rows.get? p.1 = some p.2 := by rw [hn]; simpa using hj
  split at hi
  · rw [List.mem_singleton] at hi
    subst hi
    exact ⟨p.1, p.2, hjj, by simpa using hb, rfl, ⟨_, rfl, by decide⟩, rfl⟩
  · exact absurd hi (List.not_mem_nil _)

theorem mem_check_punctuation {df : Table} {i : Issue}
    (h : i ∈ check_expected_results_punctuation df) :
    ∃ idx rec, df.rows.get? idx = some rec ∧ is_blank_row rec = false ∧
      i.row = some (excel_row_number idx) ∧
      (∃ m, i.message = some m ∧ m ≠ "") ∧
      i.rule = some "EXPECTED_RESULTS_PUNCTUATION" := by
  unfold check_expected_results_punctuation at h
  split at h
  swap
  · simp at h
  rw [List.mem_flatMap] at h
  obtain ⟨p, hp, hi⟩ := h
  obtain ⟨j, hj, hn⟩ := mem_rowsWithIdx hp
  unfold punctuationRow at hi
  dsimp only at hi
  split at hi
  · simp at hi
  rename_i hb
  have hjj : df.rows.get? p.1 = some p.2 := by rw [hn]; simpa using hj
  split at hi
  · simp at hi
  split at hi
  · simp at hi
  rw [List.mem_singleton] at hi
  subst hi
  exact ⟨p.1, p.2, hjj, by simpa using hb, rfl, ⟨_, rfl, by decide⟩, rfl⟩

theorem mem_check_generic {df : Table} {i : Issue}
    (h : i ∈ check_generic_expected_results df) :
    ∃ idx rec, df.rows.get? idx = some rec ∧ is_blank_row rec = false ∧
      i.row = some (excel_row_number idx) ∧
      (∃ m, i.message = some m ∧ m ≠ "") ∧
      i.rule = some "GENERIC_EXPECTED_RESULTS" := by
  unfold check_generic_expected_results at h
  split at h
  swap
  · simp at h
  rw [List.mem_flatMap] at h
  obtain ⟨p, hp, hi⟩ := h
  obtain ⟨j, hj, hn⟩ := mem_rowsWithIdx hp
  unfold genericRow at hi
  dsimp only at hi
  split at hi
  · simp at hi
  rename_i hb
  have hjj : df.rows.get? p.1 = some p.2 := by rw [hn]; simpa using hj
  split at hi
  · simp at hi
  split at hi
  · rw [List.mem_singleton] at hi
    subst hi
    refine ⟨p.1, p.2, hjj, by simpa using hb, rfl, ⟨_, rfl, ?_⟩, rfl⟩
    exact ne_empty_of_append_left (ne_empty_of_append_left (by decide))
  split at hi
  · rw [List.mem_singleton] at hi
    subst hi
    refine ⟨p.1, p.2, hjj, by simpa using hb, rfl, ⟨_, rfl, ?_⟩, rfl⟩
    exact ne_empty_of_append_left (ne_empty_of_append_left (by decide))
  · exact absurd hi (List.not_mem_nil _)

theorem mem_check_blank_rows {df : Table} {i : Issue}
    (h : i ∈ check_blank_rows df) :
    ∃ idx rec, df.rows.get? idx = some rec ∧ is_blank_row rec = true ∧
      i.row = some (excel_row_number idx) ∧
      i.message = some "Blank row" ∧ i.rule = some "BLANK_ROW" := by
  unfold check_blank_rows at h
  rw [List.mem_flatMap] at h
  obtain ⟨p, hp, hi⟩ := h
  obtain ⟨j, hj, hn⟩ := mem_rowsWithIdx hp
  unfold blankRowsRow at hi
  have hjj : df.rows.get? p.1 = some p.2 := by rw [hn]; simpa using hj
  split at hi
  · rw [List.mem_singleton] at hi
    subst hi
    rename_i hb
    exact ⟨p.1, p.2, hjj, hb, rfl, rfl, rfl⟩
  · exact absurd hi (List.not_mem_nil _)

theorem mem_check_missing_columns {df : Table} {i : Issue}
    (h : i ∈ check_missing_columns df) :
    (∃ m, i.message = some m ∧ m ≠ "") ∧ i.rule = some "MISSING_COLUMNS" := by
  unfold check_missing_columns at h
  dsimp only at h
  split at h
  · simp at h
  rw [List.mem_singleton] at h
  subst h
  exact ⟨⟨_, rfl, ne_empty_of_append_left (by decide)⟩, rfl⟩

/-! ## Claim C7: blank-row invariance -/

/-- C7: a fully blank row never appears as the row of an issue emitted by
the required-fields, data-required, punctuation or generic-text validators;
of the row-level sections in scope only the blank-row validator may cite
such a row (as its BLANK_ROW warning). -/
theorem blank_row_invariance (df : Table) (idx : Nat) (rec : Record)
    (hget : df.rows.get? idx = some rec) (hblank : is_blank_row rec = true) :
    (∀ i, i ∈ check_required_fields df ++ check_data_required_for_actions df ++
            check_expected_results_punctuation df ++ check_generic_expected_results df →
       i.row ≠ some (excel_row_number idx)) ∧
    (∀ i, i ∈ check_blank_rows df → i.row = some (excel_row_number idx) →
       i.message = some "Blank row" ∧ i.rule = some "BLANK_ROW") := by
  constructor
  · intro i hi hrow
    have hfact : ∃ jdx jrec, df.rows.get? jdx = some jrec ∧
        is_blank_row jrec = false ∧ i.row = some (excel_row_number jdx) := by
      simp only [List.mem_append] at hi
      rcases hi with ((hi | hi) | hi) | hi
      · obtain ⟨a, b, h1, h2, h3, _⟩ := mem_check_required_fields hi
        exact ⟨a, b, h1, h2, h3⟩
      · obtain ⟨a, b, h1, h2, h3, _⟩ := mem_check_data_required hi
        exact ⟨a, b, h1, h2, h3⟩
      · obtain ⟨a, b, h1, h2, h3, _⟩ := mem_check_punctuation hi
        exact ⟨a, b, h1, h2, h3⟩
      · obtain ⟨a, b, h1, h2, h3, _⟩ := mem_check_generic hi
        exact ⟨a, b, h1, h2, h3⟩
    obtain ⟨jdx, jrec, hjget, hjblank, hjrow⟩ := hfact
    rw [hrow] at hjrow
    have hj : jdx = idx := by
      have := Option.some.inj hjrow
      unfold excel_row_number at this
      omega
    subst hj
    rw [hget] at hjget
    rw [← Option.some.inj hjget, hblank] at hjblank
    cases hjblank
  · intro i hi _
    obtain ⟨_, _, _, _, _, hmsg, hrule⟩ := mem_check_blank_rows hi
    exact ⟨hmsg, hrule⟩

/-- Witness for C7: on `dfBlankMix` (blank second row, empty Action in the
first), the REQUIRED_FIELDS issue produced at Excel row 2 is in the
four-validator output yet does not cite the blank row's Excel row 3. -/
theorem blank_row_invariance_witness :
    make_issue (some 2) "Action is empty" "REQUIRED_FIELDS" "FAIL" (some "Action") ∈
      (check_required_fields dfBlankMix ++ check_data_required_for_actions dfBlankMix ++
       check_expected_results_punctuation dfBlankMix ++
       check_generic_expected_results dfBlankMix) ∧
    (make_issue (some 2) "Action is empty" "REQUIRED_FIELDS" "FAIL"
       (some "Action")).row ≠ some 3 := by
  constructor
  · decide
  · exact (blank_row_invariance dfBlankMix 1 (mkRow4 "" "" "" "")
      (by decide) (by decide)).1 _ (by decide)

/-! ## Membership characterizations: core steps and step numbering -/

theorem mem_check_core_steps {df : Table} {i : Issue}
    (h : i ∈ check_core_steps_enforcement df) :
    (∃ m, i.message = some m ∧ m ≠ "") ∧ i.rule = none ∧
      i.severity = some "WARNING" := by
  unfold check_core_steps_enforcement at h
  split at h
  · simp at h
  split at h
  · simp at h
  dsimp only at h
  split at h
  · simp at h
  split at h
  · simp at h
  unfold coreEnforcementIssues at h
  dsimp only at h
  rw [List.mem_flatMap] at h
  obtain ⟨n, _, hi⟩ := h
  rw [List.mem_append] at hi
  rcases hi with hi | hi <;> split at hi
  · exact absurd hi (List.not_mem_nil _)
  · rw [List.mem_singleton] at hi
    subst hi
    refine ⟨⟨_, rfl, ?_⟩, rfl, rfl⟩
    repeat' apply ne_empty_of_append_left
    decide
  · exact absurd hi (List.not_mem_nil _)
  · rw [List.mem_singleton] at hi
    subst hi
    refine ⟨⟨_, rfl, ?_⟩, rfl, rfl⟩
    repeat' apply ne_empty_of_append_left
    decide

theorem mem_orderingGo {l : List (Nat × Int)} :
    ∀ {prev : Nat × Int} {i : Issue}, i ∈ orderingGo prev l →
      ∃ r, i = stepIssue r outOfOrderMessage := by
  induction l with
  | nil => intro prev i h; simp [orderingGo] at h
  | cons y t ih =>
    intro prev i h
    unfold orderingGo at h
    split at h
    · rw [List.mem_singleton] at h
      exact ⟨y.1, h⟩
    · exact ih h

theorem mem_stepParseIssues {tcId : Value} {e : Nat × Value} {i : Issue}
    (h : i ∈ stepParseIssues tcId e) :
    i.rule = none ∧ i.message = none ∧ (∃ m, i.error = some m ∧ m ≠ "") := by
  unfold stepParseIssues at h
  split at h
  · exact absurd h (List.not_mem_nil _)
  split at h <;> rw [List.mem_singleton] at h <;> subst h <;>
    refine ⟨rfl, rfl, _, rfl, ?_⟩ <;>
    (repeat' apply ne_empty_of_append_left) <;> decide

theorem mem_stepDupIssues {tcId : Value} {sio : List (Nat × Int)} {s : Int}
    {i : Issue} (h : i ∈ stepDupIssues tcId sio s) :
    i.rule = none ∧ i.message = none ∧ (∃ m, i.error = some m ∧ m ≠ "") := by
  unfold stepDupIssues at h
  dsimp only at h
  split at h
  · rw [List.mem_map] at h
    obtain ⟨r, _, hr⟩ := h
    subst hr
    refine ⟨rfl, rfl, _, rfl, ?_⟩
    repeat' apply ne_empty_of_append_left
    decide
  · exact absurd h (List.not_mem_nil _)

theorem mem_stepMissIssues {tcId : Value} {group_rows : List Nat}
    {valid_steps : List Int} {i : Issue}
    (h : i ∈ stepMissIssues tcId group_rows valid_steps) :
    i.rule = none ∧ i.message = none ∧ (∃ m, i.error = some m ∧ m ≠ "") := by
  unfold stepMissIssues at h
  dsimp only at h
  split at h
  · exact absurd h (List.not_mem_nil _)
  · rw [List.mem_singleton] at h
    subst h
    refine ⟨rfl, rfl, _, rfl, ?_⟩
    repeat' apply ne_empty_of_append_left
    decide

theorem mem_stepGroupErrors {tcId : Value} {grp : List (Nat × Record)} {i : Issue}
    (h : i ∈ stepGroupErrors tcId grp) :
    i.rule = none ∧ i.message = none ∧ (∃ m, i.error = some m ∧ m ≠ "") := by
  unfold stepGroupErrors at h
  dsimp only at h
  split at h
  · rw [List.mem_flatMap] at h
    obtain ⟨e, _, he⟩ := h
    exact mem_stepParseIssues he
  · simp only [List.mem_append] at h
    rcases h with ((h | h) | h) | h
    · rw [List.mem_flatMap] at h
      obtain ⟨e, _, he⟩ := h
      exact mem_stepParseIssues he
    · rw [List.mem_flatMap] at h
      obtain ⟨s, _, hs⟩ := h
      exact mem_stepDupIssues hs
    · exact mem_stepMissIssues h
    · rcases hl : (grp.map (fun p => (excel_row_number p.1, p.2.getV "Step #"))).filterMap
          (fun e => (to_int_step e.2).map (fun s => (e.1, s))) with _ | ⟨x, rest⟩
      · rw [hl] at h
        exact absurd h (List.not_mem_nil _)
      · rw [hl] at h
        unfold orderingErrors at h
        obtain ⟨r, hr⟩ := mem_orderingGo h
        subst hr
        exact ⟨rfl, rfl, _, rfl, by decide⟩

theorem mem_check_step_numbering {df : Table} {i : Issue}
    (h : i ∈ check_step_numbering df) :
    i.rule = none ∧ i.message = none ∧ (∃ m, i.error = some m ∧ m ≠ "") := by
  unfold check_step_numbering at h
  split at h
  swap
  · simp at h
  dsimp only at h
  rw [List.mem_flatMap] at h
  obtain ⟨k, _, hk⟩ := h
  exact mem_stepGroupErrors hk

/-! ## Claim C1: issue shape -/

/-- Counterexample to C1: the scan of `dfBadStep` returns exactly one issue,
the step-numbering error dict, which carries no rule identifier key at all
(and its text sits under the `error` key, not `message`). -/
theorem issue_rule_missing_counterexample :
    (scan dfBadStep).errors =
      [stepIssue 2 "Step # is not a number: \"x\" (Test Case ID: TC1)"] ∧
    (stepIssue 2 "Step # is not a number: \"x\" (Test Case ID: TC1)").rule = none ∧
    (stepIssue 2 "Step # is not a number: \"x\" (Test Case ID: TC1)").message = none := by
  exact ⟨by decide, rfl, rfl⟩

/-- C1 (amended): every issue of the six `make_issue`-based validators
carries a non-empty message and a non-empty rule identifier; every
core-steps issue carries a non-empty message but no rule identifier; every
step-numbering issue carries a non-empty text under its `error` key, no
`message` key, and no rule identifier. -/
theorem issue_shape_invariant (df : Table) :
    (∀ i, i ∈ check_missing_columns df ++ check_required_fields df ++
            check_blank_rows df ++ check_data_required_for_actions df ++
            check_expected_results_punctuation df ++
            check_generic_expected_results df →
       (∃ m, i.message = some m ∧ m ≠ "") ∧ (∃ r, i.rule = some r ∧ r ≠ "")) ∧
    (∀ i, i ∈ check_core_steps_enforcement df →
       (∃ m, i.message = some m ∧ m ≠ "") ∧ i.rule = none) ∧
    (∀ i, i ∈ check_step_numbering df →
       (∃ m, i.error = some m ∧ m ≠ "") ∧ i.rule = none ∧ i.message = none) := by
  refine ⟨?_, ?_, ?_⟩
  · intro i hi
    simp only [List.mem_append] at hi
    rcases hi with ((((hi | hi) | hi) | hi) | hi) | hi
    · obtain ⟨hm, hr⟩ := mem_check_missing_columns hi
      exact ⟨hm, _, hr, by decide⟩
    · obtain ⟨_, _, _, _, _, hm, hr⟩ := mem_check_required_fields hi
      exact ⟨hm, _, hr, by decide⟩
    · obtain ⟨_, _, _, _, _, hm, hr⟩ := mem_check_blank_rows hi
      exact ⟨⟨_, hm, by decide⟩, _, hr, by decide⟩
    · obtain ⟨_, _, _, _, _, hm, hr⟩ := mem_check_data_required hi
      exact ⟨hm, _, hr, by decide⟩
    · obtain ⟨_, _, _, _, _, hm, hr⟩ := mem_check_punctuation hi
      exact ⟨hm, _, hr, by decide⟩
    · obtain ⟨_, _, _, _, _, hm, hr⟩ := mem_check_generic hi
      exact ⟨hm, _, hr, by decide⟩
  · intro i hi
    obtain ⟨hm, hr, _⟩ := mem_check_core_steps hi
    exact ⟨hm, hr⟩
  · intro i hi
    obtain ⟨hr, hm, he⟩ := mem_check_step_numbering hi
    exact ⟨he, hr, hm⟩

/-- Witness for C1 (amended): the theorem applied to `dfCore`, instantiated
at a BLANK_ROW issue, a core-steps issue, and a step-numbering issue the
scan of that table actually produces. -/
theorem issue_shape_invariant_witness :
    ((∃ m, (make_issue (some 3) "Blank row" "BLANK_ROW" "WARNING" none).message =
        some m ∧ m ≠ "") ∧
     (∃ r, (make_issue (some 3) "Blank row" "BLANK_ROW" "WARNING" none).rule =
        some r ∧ r ≠ "")) ∧
    ((∃ m, (coreIssue 3 ("Core Step 2 Action mismatch. Expected: \"Select appropriate " ++
        "PIV Card Certificate and select OK button\" | Found: \"\".")).message =
        some m ∧ m ≠ "") ∧
     (coreIssue 3 ("Core Step 2 Action mismatch. Expected: \"Select appropriate " ++
        "PIV Card Certificate and select OK button\" | Found: \"\".")).rule = none) ∧
    ((∃ m, (stepIssue 2 "Missing Step # in Test Case ID TC1: 2").error =
        some m ∧ m ≠ "") ∧
     (stepIssue 2 "Missing Step # in Test Case ID TC1: 2").rule = none ∧
     (stepIssue 2 "Missing Step # in Test Case ID TC1: 2").message = none) := by
  obtain ⟨h1, h2, h3⟩ := issue_shape_invariant dfCore
  exact ⟨h1 _ (by decide), h2 _ (by decide), h3 _ (by decide)⟩
